import Mathlib

/-!
Shallow embedding of the RoadTrip backend (Express + Mongoose) core:
the authentication and ownership-scoped trip access model.

Sources embedded:
- backend/models/User.js        (userSchema, pre-save password hashing, matchPassword)
- backend/models/Trip.js        (tripSchema, locationSchema, schema validation)
- backend/controllers/authController.js (generateToken, signupUser, loginUser)
- backend/controllers/tripController.js (getTrips, createTrip, deleteTrip)
- backend/middleware/authMiddleware.js  (protect)
- backend/middleware/errorMiddleware.js (errorHandler)

External collaborators (bcryptjs, jsonwebtoken, MongoDB document store) are
modelled at their interface, computably, as documented at each definition.
The database is an explicit in-memory store threaded through the handlers;
server-assigned identifiers, bcrypt salts and the clock are explicit counters.
-/

namespace RoadTrip

/-- A JSON value, for modelling the JSON response bodies the server emits. -/
inductive JVal where
  | null
  | str (s : String)
  | num (n : Int)
  | arr (xs : List JVal)
  | obj (fields : List (String × JVal))

/-- Field lookup in a JSON object body (`none` when the key is absent or the
value is not an object). -/
def JVal.objLookup : JVal → String → Option JVal
  | .obj fields, key => fields.lookup key
  | _, _ => none

/-- An HTTP response: status code plus JSON body. -/
structure Response where
  status : Nat
  body : JVal

/-! ### String primitives

The JavaScript string operations the code uses, modelled structurally over
the character list of a `String` (so that concrete instances evaluate). -/

/-- `String.prototype.split` with a one-character separator, on character
lists: splits at every occurrence, keeping empty pieces. -/
def splitChars (sep : Char) : List Char → List (List Char)
  | [] => [[]]
  | c :: cs =>
    match splitChars sep cs with
    | [] => [[]]
    | cur :: rest => if c = sep then [] :: cur :: rest else (c :: cur) :: rest

/-- `header.split(sep)` for a one-character separator. -/
def jsSplit (sep : Char) (s : String) : List String :=
  (splitChars sep s.data).map String.mk

/-- The `lowercase: true` schema setter (`String.prototype.toLowerCase`). -/
def strToLower (s : String) : String :=
  ⟨s.data.map Char.toLower⟩

/-- The `trim: true` schema setter (`String.prototype.trim`): strip leading
and trailing whitespace. -/
def strTrim (s : String) : String :=
  ⟨((s.data.dropWhile Char.isWhitespace).reverse.dropWhile Char.isWhitespace).reverse⟩

/-- `String.prototype.startsWith`. -/
def strStartsWith (s pre : String) : Bool :=
  pre.data.isPrefixOf s.data

/-- Parse a decimal numeral; `none` unless the string is nonempty and all
digits. -/
def strToNat (s : String) : Option Nat :=
  if s.data ≠ [] ∧ s.data.all Char.isDigit then
    some (s.data.foldl (fun n c => n * 10 + (c.toNat - 48)) 0)
  else none

/-- Model of the external bcryptjs library's hash value.  The real library
encodes cost factor, random salt and digest into one string; since the digest
is an injective one-way function of (cost, salt, password) we model the hash
as the triple itself.  `digestOf` records the password string the digest was
computed from (one-wayness is a computational assumption outside the model). -/
structure BcryptHash where
  cost : Nat
  salt : Nat
  digestOf : String
deriving Repr, DecidableEq

/-- Model of `bcrypt.hash(password, salt)` where the salt was produced by
`bcrypt.genSalt(cost)`: deterministic in (cost, salt, password). -/
def bcryptHashFn (cost salt : Nat) (password : String) : BcryptHash :=
  ⟨cost, salt, password⟩

/-- A Mongoose `password` field value: plaintext as set by application code,
or the bcrypt hash the pre-save hook replaced it with. -/
inductive PasswordValue where
  | plain (s : String)
  | hashed (h : BcryptHash)
deriving Repr, DecidableEq

/-- The string bcrypt receives when hashing the field's current value.  A
plaintext value is the string itself; a hash value stringifies to its
encoded form (that path is unreachable in this application's flows). -/
def PasswordValue.asString : PasswordValue → String
  | .plain s => s
  | .hashed h => "2b." ++ toString h.cost ++ "." ++ toString h.salt ++ "." ++ h.digestOf

/-- Model of `bcrypt.compare(entered, stored)`: the library parses cost and
salt out of the stored hash, re-hashes the entered password with them and
compares digests.  Comparing against a non-hash string yields false. -/
def bcryptCompare (entered : String) (stored : PasswordValue) : Bool :=
  match stored with
  | .plain _ => false
  | .hashed h => decide (bcryptHashFn h.cost h.salt entered = h)

/-- models/User.js `userSchema.pre('save')`: if the password field has not
been modified, continue without rehashing; otherwise generate a salt with
cost factor 10 and replace the field with the bcrypt hash of its value.
`salt` is the fresh salt `bcrypt.genSalt(10)` produced for this save. -/
def preSaveHashPassword (isPasswordModified : Bool) (password : PasswordValue)
    (salt : Nat) : PasswordValue :=
  if isPasswordModified then .hashed (bcryptHashFn 10 salt password.asString)
  else password

/-- A stored User document (collection `users`). `username` and `email` are
stored trimmed by the schema's `trim: true` setters and `email` additionally
lowercased by `lowercase: true`. `password` is the verifier the pre-save
hook produced. -/
structure UserDoc where
  id : Nat
  username : String
  email : String
  password : PasswordValue
deriving Repr, DecidableEq

/-- models/User.js `matchPassword`: compare an entered plaintext password
against the stored verifier with `bcrypt.compare`. -/
def UserDoc.matchPassword (u : UserDoc) (enteredPassword : String) : Bool :=
  bcryptCompare enteredPassword u.password

/-- What `protect` attaches to `req.user`: the User document with the
password field excluded (`.select('-password')`). -/
structure UserView where
  id : Nat
  username : String
  email : String
deriving Repr, DecidableEq

/-- A location/stop subdocument (models/Trip.js `locationSchema`).
Coordinates are modelled as integers; no claim computes with their values. -/
structure Location where
  name : String
  latitude : Int
  longitude : Int
deriving Repr, DecidableEq

/-- A stored Trip document (collection `trips`), with the server-assigned
`_id` and the `createdAt` timestamp from `timestamps: true`. -/
structure TripDoc where
  id : Nat
  title : String
  description : Option String
  locations : List Location
  createdBy : Nat
  createdAt : Nat
deriving Repr, DecidableEq

/-- The document store plus the server's id / salt counters.  MongoDB
assigns each document a unique `_id`; we model that with monotone counters.
`nextSalt` models the randomness source behind `bcrypt.genSalt`: each draw
is fresh, so distinct draws give distinct salts. -/
structure DB where
  users : List UserDoc
  trips : List TripDoc
  nextUserId : Nat
  nextTripId : Nat
  nextSalt : Nat
deriving Repr, DecidableEq

/-- `User.findOne({ email })`.  The schema's `trim` and `lowercase` setters
run both on the stored value and (as Mongoose applies schema setters to
query filters) on the queried value, so both sides are compared trimmed and
lowercased. -/
def findUserByEmail (db : DB) (email : String) : Option UserDoc :=
  db.users.find? (fun u => decide (u.email = strToLower (strTrim email)))

/-- `User.findById(id)`. -/
def findUserById (db : DB) (id : Nat) : Option UserDoc :=
  db.users.find? (fun u => decide (u.id = id))

/-- `Trip.findById(id)`. -/
def findTripById (db : DB) (id : Nat) : Option TripDoc :=
  db.trips.find? (fun t => decide (t.id = id))

/-! ## JWT model (external jsonwebtoken library, at its interface) -/

/-- A decoded JWT as this app uses it: payload `{ id }`, an `exp` claim in
seconds since the epoch, and the signature.  The HMAC signature is a function
of the signing secret and the payload; since the payload is carried alongside
it, we model the signature by the secret that produced it — verification with
secret `s` succeeds exactly for tokens signed with `s`. -/
structure Jwt where
  id : Nat
  exp : Nat
  sig : String
deriving Repr, DecidableEq

/-- `jwt.sign({ id }, secret, { expiresIn: '30d' })` issued at time `now`
(seconds): the exp claim is 30 days ahead. -/
def jwtSign (secret : String) (id : Nat) (now : Nat) : Jwt :=
  ⟨id, now + 30 * 24 * 60 * 60, secret⟩

/-- `jwt.verify(token, secret)` on an already-decoded token at time `now`:
checks the signature, then the `exp` claim (expired when `now ≥ exp`);
returns the embedded id on success, an error message on failure. -/
def jwtVerify (secret : String) (now : Nat) (token : Jwt) : Except String Nat :=
  if token.sig ≠ secret then .error "invalid signature"
  else if token.exp ≤ now then .error "jwt expired"
  else .ok token.id

/-- The compact serialization of a token, as it travels in the
Authorization header: `id.exp.signature`. -/
def encodeJwt (token : Jwt) : String :=
  toString token.id ++ "." ++ toString token.exp ++ "." ++ token.sig

/-- Parsing the compact serialization back into a token; `none` on a
malformed string. The signature part may itself contain dots. -/
def decodeJwt (s : String) : Option Jwt :=
  match jsSplit '.' s with
  | idStr :: expStr :: sigParts =>
    match strToNat idStr, strToNat expStr with
    | some i, some e =>
      if sigParts.isEmpty then none
      else some ⟨i, e, String.intercalate "." sigParts⟩
    | _, _ => none
  | _ => none

/-- `jwt.verify` as called by the middleware, on the raw string extracted
from the header (`none` models `undefined` when the split had no second
part, which the library rejects). -/
def jwtVerifyStr (secret : String) (now : Nat) (s : Option String) :
    Except String Nat :=
  match s with
  | none => .error "jwt must be provided"
  | some str =>
    match decodeJwt str with
    | none => .error "jwt malformed"
    | some token => jwtVerify secret now token

/-! ## authController.js -/

/-- controllers/authController.js `generateToken`: a signed token for a user
id, valid for 30 days from `now`. -/
def generateToken (secret : String) (now : Nat) (id : Nat) : Jwt :=
  jwtSign secret id now

/-- The errors an operation can surface.  `http s m` models
`res.status(s); throw new Error(m)` in a controller; the other constructors
are failures thrown with `res.statusCode` still at its default 200:
`dupKey` a MongoDB E11000 unique-index violation, `validation` a Mongoose
schema validation failure at save, `typeError` a JavaScript TypeError such
as reading a property of null. -/
inductive ApiError where
  | http (status : Nat) (msg : String)
  | dupKey (field : String)
  | validation (msg : String)
  | typeError (msg : String)
deriving Repr, DecidableEq

/-- The body `signupUser`/`loginUser` send on success:
`{_id, username, email, token}`. -/
structure AuthResponse where
  userId : Nat
  username : String
  email : String
  token : Jwt
deriving Repr, DecidableEq

/-- `User.create({username, email, password})`: the storage layer enforces
the schema's unique indexes on `username` and `email` (E11000 on violation),
the `trim` setters normalize both fields and the `lowercase` setter the
email, the pre-save hook hashes the password (the password field of a new
document counts as modified), and a fresh `_id` and salt are drawn. -/
def userCreate (db : DB) (username email password : String) :
    Except ApiError (DB × UserDoc) :=
  if db.users.any (fun u => decide (u.username = strTrim username)) then
    .error (.dupKey "username")
  else if db.users.any (fun u => decide (u.email = strToLower (strTrim email))) then
    .error (.dupKey "email")
  else
    let u : UserDoc :=
      { id := db.nextUserId, username := strTrim username,
        email := strToLower (strTrim email),
        password := preSaveHashPassword true (.plain password) db.nextSalt }
    .ok ({ db with users := db.users ++ [u],
                   nextUserId := db.nextUserId + 1,
                   nextSalt := db.nextSalt + 1 }, u)

/-- controllers/authController.js `signupUser`: 400 when a field is missing
(JS falsiness of the empty string models a missing field), 400 when an
account with that email already exists, otherwise create the user and
respond 201 with `{_id, username, email, token}`. -/
def signupUser (secret : String) (now : Nat) (db : DB)
    (username email password : String) : Except ApiError (DB × AuthResponse) :=
  if username = "" ∨ email = "" ∨ password = "" then
    .error (.http 400 "Please fill in all fields")
  else
    match findUserByEmail db email with
    | some _ => .error (.http 400 "User already exists")
    | none =>
      match userCreate db username email password with
      | .error e => .error e
      | .ok (db', u) =>
        .ok (db', ⟨u.id, u.username, u.email, generateToken secret now u.id⟩)

/-- controllers/authController.js `loginUser`: look the account up by email;
if found and the password verifies, respond with `{_id, username, email,
token}`; otherwise 401 "Invalid email or password". -/
def loginUser (secret : String) (now : Nat) (db : DB)
    (email password : String) : Except ApiError AuthResponse :=
  match findUserByEmail db email with
  | some u =>
    if u.matchPassword password then
      .ok ⟨u.id, u.username, u.email, generateToken secret now u.id⟩
    else .error (.http 401 "Invalid email or password")
  | none => .error (.http 401 "Invalid email or password")

/-! ## tripController.js -/

/-- A trip as `getTrips` returns it after
`.populate('createdBy', 'username')`: the owning user reference resolved to
the owner's username (`none` when the referenced user no longer exists, as
populate then yields null). -/
structure TripView where
  id : Nat
  title : String
  description : Option String
  locations : List Location
  createdBy : Nat
  createdByUsername : Option String
  createdAt : Nat
deriving Repr, DecidableEq

/-- Resolve one stored trip to its populated view. -/
def mkTripView (db : DB) (t : TripDoc) : TripView :=
  { id := t.id, title := t.title, description := t.description,
    locations := t.locations, createdBy := t.createdBy,
    createdByUsername := (findUserById db t.createdBy).map (fun u => u.username),
    createdAt := t.createdAt }

/-- controllers/tripController.js `getTrips`:
`Trip.find({createdBy: req.user._id}).populate('createdBy','username')`.
`req.user` may be null (the middleware attaches whatever `findById`
returned); reading `._id` off null throws a TypeError. -/
def getTrips (db : DB) (user : Option UserView) :
    Except ApiError (List TripView) :=
  match user with
  | none => .error (.typeError "Cannot read properties of null (reading _id)")
  | some u =>
    .ok ((db.trips.filter (fun t => decide (t.createdBy = u.id))).map (mkTripView db))

/-- models/Trip.js schema validation at `trip.save()`: the `trim` setters
have already trimmed `title` and each location `name`; `required: true` on a
String path rejects the empty string, so a blank title or a blank stop name
makes the save fail with a Mongoose ValidationError. -/
def tripValidate (t : TripDoc) : Bool :=
  !(decide (t.title = "")) && t.locations.all (fun l => !(decide (l.name = "")))

/-- controllers/tripController.js `createTrip`: 400 when title or the
locations list is missing/empty (JS falsiness); then
`new Trip({title, description, locations, createdBy: req.user._id})` (a
TypeError on a null `req.user`) and `trip.save()`, which runs the schema's
trim setters and validators and assigns `_id` and `createdAt`; respond 201
with the created trip. -/
def createTrip (now : Nat) (db : DB) (user : Option UserView) (title : String)
    (description : Option String) (locations : List Location) :
    Except ApiError (DB × TripDoc) :=
  if title = "" ∨ locations.isEmpty then
    .error (.http 400 "Please include a title and at least one location")
  else
    match user with
    | none => .error (.typeError "Cannot read properties of null (reading _id)")
    | some u =>
      let t : TripDoc :=
        { id := db.nextTripId, title := strTrim title, description := description,
          locations := locations.map (fun l => { l with name := strTrim l.name }),
          createdBy := u.id, createdAt := now }
      if tripValidate t then
        .ok ({ db with trips := db.trips ++ [t], nextTripId := db.nextTripId + 1 }, t)
      else .error (.validation "Trip validation failed")

/-- controllers/tripController.js `deleteTrip`: 404 when no trip has that
id; 403 when the requester is not its creator; otherwise
`Trip.deleteOne({_id})` removes it (`_id` is MongoDB's unique primary key,
so removal is by id) and the confirmation message is returned. -/
def deleteTrip (db : DB) (userId tripId : Nat) :
    Except ApiError (DB × String) :=
  match findTripById db tripId with
  | none => .error (.http 404 "Trip not found")
  | some trip =>
    if trip.createdBy ≠ userId then
      .error (.http 403 "Not authorized to delete this trip")
    else
      .ok ({ db with trips := db.trips.filter (fun t => !(decide (t.id = tripId))) },
           "Trip removed successfully")

/-! ## errorMiddleware.js and the express error path -/

/-- middleware/errorMiddleware.js `errorHandler`: the status is whatever the
controller set before throwing, defaulting to 500 when it is still 200; the
body is `{error: err.message, stack: ...}` with the stack trace replaced by
null exactly when NODE_ENV is 'production'. -/
def errorHandler (env : String) (resStatusCode : Nat) (message stackTrace : String) :
    Response :=
  { status := if resStatusCode = 200 then 500 else resStatusCode,
    body := .obj [("error", .str message),
                  ("stack", if env = "production" then .null else .str stackTrace)] }

/-- The `res.statusCode` in force when an error reaches `errorHandler`:
controllers set it explicitly before throwing (`ApiError.http`); storage
and runtime errors are thrown with it still at the express default 200. -/
def presetStatus : ApiError → Nat
  | .http s _ => s
  | _ => 200

/-- The `err.message` `errorHandler` reports. -/
def errMessageOf : ApiError → String
  | .http _ m => m
  | .dupKey f => "E11000 duplicate key error collection: users index: " ++ f ++ "_1"
  | .validation m => m
  | .typeError m => m

/-- An error thrown in a handler, routed through `express-async-handler` to
`errorHandler`. `stackTrace` stands for the trace the Error captured. -/
def errorResponse (env : String) (stackTrace : String) (e : ApiError) : Response :=
  errorHandler env (presetStatus e) (errMessageOf e) stackTrace

/-! ## authMiddleware.js -/

/-- An incoming request to a protected route: just its Authorization
header (`none` when absent). -/
structure Request where
  authorization : Option String

/-- middleware/authMiddleware.js `protect`.  If the header exists and starts
with "Bearer": split on spaces, take part 1 as the token, verify it, attach
`User.findById(decoded.id).select('-password')` to `req.user` (null when no
such user) and continue; any failure inside the try is answered directly
with `401 {error: 'Not authorized, token failed'}`.  Otherwise the request
is answered with `401 {error: 'Not authorized, no token'}`.  The result is
`.ok req.user` when the pipeline continues, `.error` with the single
response written when it stops here. -/
def protect (secret : String) (now : Nat) (db : DB) (req : Request) :
    Except Response (Option UserView) :=
  match req.authorization with
  | some header =>
    if strStartsWith header "Bearer" then
      match jwtVerifyStr secret now (jsSplit ' ' header)[1]? with
      | .ok uid =>
        .ok ((findUserById db uid).map (fun u => ⟨u.id, u.username, u.email⟩))
      | .error _ =>
        .error ⟨401, .obj [("error", .str "Not authorized, token failed")]⟩
    else .error ⟨401, .obj [("error", .str "Not authorized, no token")]⟩
  | none => .error ⟨401, .obj [("error", .str "Not authorized, no token")]⟩

/-- Run a route handler's outcome to a response: a thrown error goes
through `express-async-handler` to `errorHandler`. -/
def runHandler (env stackTrace : String) (outcome : Except ApiError Response) :
    Response :=
  match outcome with
  | .ok r => r
  | .error e => errorResponse env stackTrace e

/-- A protected route as express dispatches it: `protect` first; when it
wrote a response the handler never runs (the Bool records whether the
downstream handler was executed).  Exactly one response is produced. -/
def handleProtected (secret : String) (now : Nat) (env stackTrace : String)
    (db : DB) (req : Request)
    (handler : Option UserView → Except ApiError Response) : Response × Bool :=
  match protect secret now db req with
  | .error resp => (resp, false)
  | .ok user => (runHandler env stackTrace (handler user), true)

/-! ## JSON encodings of success responses, and request-level wrappers -/

/-- JSON encoding of a location subdocument. -/
def locationJson (l : Location) : JVal :=
  .obj [("name", .str l.name), ("latitude", .num l.latitude),
        ("longitude", .num l.longitude)]

/-- JSON encoding of a populated trip, as `getTrips` responds with. -/
def tripViewJson (tv : TripView) : JVal :=
  .obj [("_id", .num tv.id), ("title", .str tv.title),
        ("description", match tv.description with
                        | some d => .str d
                        | none => .null),
        ("locations", .arr (tv.locations.map locationJson)),
        ("createdBy", match tv.createdByUsername with
                      | some name => .obj [("_id", .num tv.createdBy),
                                           ("username", .str name)]
                      | none => .null),
        ("createdAt", .num tv.createdAt)]

/-- The `getTrips` route handler over a fixed store: 200 with the JSON array
of the caller's populated trips. -/
def getTripsHandler (db : DB) (user : Option UserView) :
    Except ApiError Response :=
  match getTrips db user with
  | .ok l => .ok ⟨200, .arr (l.map tripViewJson)⟩
  | .error e => .error e

/-- DELETE /api/trips/:id at the request level: on an error the store is
untouched and `errorHandler` writes the response; on success the store is
updated and `{message}` is sent with the 200 default status. -/
def runDeleteTrip (env stackTrace : String) (db : DB) (userId tripId : Nat) :
    DB × Response :=
  match deleteTrip db userId tripId with
  | .error e => (db, errorResponse env stackTrace e)
  | .ok (db', msg) => (db', ⟨200, .obj [("message", .str msg)]⟩)

/-- JSON encoding of a created trip, as `createTrip` responds with. -/
def tripDocJson (t : TripDoc) : JVal :=
  .obj [("_id", .num t.id), ("title", .str t.title),
        ("description", match t.description with
                        | some d => .str d
                        | none => .null),
        ("locations", .arr (t.locations.map locationJson)),
        ("createdBy", .num t.createdBy),
        ("createdAt", .num t.createdAt)]

/-- POST /api/trips at the request level: errors leave the store unchanged;
success persists the trip and responds 201 with it in full. -/
def runCreateTrip (env stackTrace : String) (now : Nat) (db : DB)
    (user : Option UserView) (title : String) (description : Option String)
    (locations : List Location) : DB × Response :=
  match createTrip now db user title description locations with
  | .error e => (db, errorResponse env stackTrace e)
  | .ok (db', t) => (db', ⟨201, tripDocJson t⟩)

/-- JSON encoding of the auth success body `{_id, username, email, token}`. -/
def authResponseJson (r : AuthResponse) : JVal :=
  .obj [("_id", .num r.userId), ("username", .str r.username),
        ("email", .str r.email), ("token", .str (encodeJwt r.token))]

/-- POST /api/auth/signup at the request level. -/
def runSignup (env stackTrace secret : String) (now : Nat) (db : DB)
    (username email password : String) : DB × Response :=
  match signupUser secret now db username email password with
  | .error e => (db, errorResponse env stackTrace e)
  | .ok (db', r) => (db', ⟨201, authResponseJson r⟩)

/-! ## Shared fixtures for concrete witnesses -/

/-- An empty store with all counters at 1. -/
def dbEmpty : DB := ⟨[], [], 1, 1, 1⟩

/-- A store holding one account (alice, id 1) and one of her trips (id 5). -/
def dbAlice : DB :=
  ⟨[⟨1, "alice", "a@x.com", .hashed (bcryptHashFn 10 1 "pw123456")⟩],
   [⟨5, "Coastal Run", none, [⟨"Pier", 34, -118⟩], 1, 0⟩], 2, 6, 2⟩

/-- A handler that would answer 200 with an empty array, for exercising the
middleware gate. -/
def emptyOkHandler : Option UserView → Except ApiError Response :=
  fun _ => .ok ⟨200, .arr []⟩

/-! ## Theorems -/

/-- Helper: inversion of a successful `userCreate` — the stored document and
the updated store are exactly the ones built from the inputs and counters. -/
theorem userCreate_ok {db : DB} {username email password : String}
    {db' : DB} {u : UserDoc}
    (h : userCreate db username email password = .ok (db', u)) :
    u = ⟨db.nextUserId, strTrim username, strToLower (strTrim email),
         preSaveHashPassword true (.plain password) db.nextSalt⟩
  ∧ db' = { db with users := db.users ++ [u], nextUserId := db.nextUserId + 1,
                    nextSalt := db.nextSalt + 1 } := by
  unfold userCreate at h
  split at h
  · exact absurd h (by simp)
  · split at h
    · exact absurd h (by simp)
    · simp only [Except.ok.injEq, Prod.mk.injEq] at h
      obtain ⟨h1, h2⟩ := h
      subst h2
      exact ⟨rfl, by rw [h1]⟩

/-- C4: for every account identifier, verifying a token produced by
`generateToken(accountId)` (signed with the same process-wide secret)
returns accountId, provided the verification time is within the 30-day
expiry window from issuance. -/
theorem verifyToken_of_generateToken (secret : String) (id now t : Nat)
    (h : t < now + 30 * 24 * 60 * 60) :
    jwtVerify secret t (generateToken secret now id) = .ok id := by
  have hne : ¬ (now + 30 * 24 * 60 * 60 ≤ t) := by omega
  simp [jwtVerify, generateToken, jwtSign, hne]

/-- Witness for C4: a token issued at time 0 for account 7 verifies to 7 at
time 5. -/
theorem verifyToken_of_generateToken_witness :
    5 < 0 + 30 * 24 * 60 * 60
  ∧ jwtVerify "sec" 5 (generateToken "sec" 0 7) = .ok 7 :=
  ⟨by decide, verifyToken_of_generateToken "sec" 7 0 5 (by decide)⟩

/-- C5: a request to a protected route with no Authorization header, or one
not carrying a bearer token, is answered with the single response
401 `{error: "Not authorized, no token"}` and the downstream handler never
executes (for every possible handler); a request whose bearer token fails
verification is answered with the single response
401 `{error: "Not authorized, token failed"}` and the downstream handler
never executes. -/
theorem protect_short_circuits (secret : String) (now : Nat)
    (env stackTrace : String) (db : DB)
    (handler : Option UserView → Except ApiError Response) :
    (handleProtected secret now env stackTrace db ⟨none⟩ handler
       = (⟨401, .obj [("error", .str "Not authorized, no token")]⟩, false))
  ∧ (∀ hdr : String, strStartsWith hdr "Bearer" = false →
       handleProtected secret now env stackTrace db ⟨some hdr⟩ handler
         = (⟨401, .obj [("error", .str "Not authorized, no token")]⟩, false))
  ∧ (∀ (hdr e : String), strStartsWith hdr "Bearer" = true →
       jwtVerifyStr secret now (jsSplit ' ' hdr)[1]? = .error e →
       handleProtected secret now env stackTrace db ⟨some hdr⟩ handler
         = (⟨401, .obj [("error", .str "Not authorized, token failed")]⟩, false)) := by
  refine ⟨?_, ?_, ?_⟩
  · simp [handleProtected, protect]
  · intro hdr hb
    simp [handleProtected, protect, hb]
  · intro hdr e hb hv
    simp [handleProtected, protect, hb, hv]

/-- Witness for C5: a header-less request, a "Basic" credential and a
garbage bearer token are each rejected with the stated 401 without the
handler running. -/
theorem protect_short_circuits_witness :
    (handleProtected "sec" 0 "development" "tr" dbAlice ⟨none⟩ emptyOkHandler
       = (⟨401, .obj [("error", .str "Not authorized, no token")]⟩, false))
  ∧ (handleProtected "sec" 0 "development" "tr" dbAlice ⟨some "Basic xyz"⟩ emptyOkHandler
       = (⟨401, .obj [("error", .str "Not authorized, no token")]⟩, false))
  ∧ (handleProtected "sec" 0 "development" "tr" dbAlice ⟨some "Bearer junk"⟩ emptyOkHandler
       = (⟨401, .obj [("error", .str "Not authorized, token failed")]⟩, false)) :=
  ⟨(protect_short_circuits "sec" 0 "development" "tr" dbAlice emptyOkHandler).1,
   (protect_short_circuits "sec" 0 "development" "tr" dbAlice emptyOkHandler).2.1
     "Basic xyz" (by decide),
   (protect_short_circuits "sec" 0 "development" "tr" dbAlice emptyOkHandler).2.2
     "Bearer junk" "jwt malformed" (by decide) rfl⟩

/-- C9: a correctly signed, unexpired token whose embedded account id
matches no stored account makes `protect` attach a null user and call the
downstream handler anyway (no 401); the `getTrips` handler then
dereferences the absent user, surfacing a TypeError as a 500. -/
theorem protect_missing_account_null_user (secret env stackTrace : String)
    (now : Nat) (db : DB) (hdr : String) (uid : Nat)
    (hb : strStartsWith hdr "Bearer" = true)
    (hv : jwtVerifyStr secret now (jsSplit ' ' hdr)[1]? = .ok uid)
    (hmiss : ∀ u ∈ db.users, u.id ≠ uid) :
    protect secret now db ⟨some hdr⟩ = .ok none
  ∧ handleProtected secret now env stackTrace db ⟨some hdr⟩ (getTripsHandler db)
      = (errorResponse env stackTrace
           (.typeError "Cannot read properties of null (reading _id)"), true)
  ∧ (handleProtected secret now env stackTrace db ⟨some hdr⟩
       (getTripsHandler db)).1.status = 500 := by
  have hfind : findUserById db uid = none := by
    rw [findUserById, List.find?_eq_none]
    intro u hu
    simpa using hmiss u hu
  refine ⟨?_, ?_, ?_⟩
  · simp [protect, hb, hv, hfind]
  · simp [handleProtected, protect, hb, hv, hfind, runHandler, getTripsHandler, getTrips]
  · simp [handleProtected, protect, hb, hv, hfind, runHandler, getTripsHandler, getTrips,
          errorResponse, errorHandler, presetStatus]

/-- Witness for C9: a valid token for the absent account 99 against a store
holding only account 1. -/
theorem protect_missing_account_null_user_witness :
    protect "sec" 5 dbAlice
      ⟨some ("Bearer " ++ encodeJwt (generateToken "sec" 0 99))⟩ = .ok none
  ∧ (handleProtected "sec" 5 "development" "tr" dbAlice
       ⟨some ("Bearer " ++ encodeJwt (generateToken "sec" 0 99))⟩
       (getTripsHandler dbAlice)).1.status = 500 :=
  ⟨(protect_missing_account_null_user "sec" "development" "tr" 5 dbAlice
      ("Bearer " ++ encodeJwt (generateToken "sec" 0 99)) 99
      (by decide) rfl (by decide)).1,
   (protect_missing_account_null_user "sec" "development" "tr" 5 dbAlice
      ("Bearer " ++ encodeJwt (generateToken "sec" 0 99)) 99
      (by decide) rfl (by decide)).2.2⟩

/-- C7 counterexample: (a) the auth middleware's 401 response body carries
no `stack` field at all, so not every error response has the shape
`{error, stack}`; (b) with NODE_ENV "staging" — not a development
configuration — the errorHandler still includes the stack trace rather than
suppressing it to null. -/
theorem error_shape_counterexample :
    (protect "sec" 0 dbEmpty ⟨none⟩
       = .error ⟨401, .obj [("error", .str "Not authorized, no token")]⟩)
  ∧ ((JVal.obj [("error", .str "Not authorized, no token")]).objLookup "stack" = none)
  ∧ ("staging" ≠ "development")
  ∧ ((errorHandler "staging" 200 "boom" "trace line 1").body.objLookup "stack"
       = some (.str "trace line 1"))
  ∧ (JVal.str "trace line 1" ≠ JVal.null) :=
  ⟨rfl, rfl, by decide, rfl, fun h => JVal.noConfusion h⟩

/-- C7 amended: every error response emitted through the central
`errorHandler` has the shape `{error: <message>, stack: <trace-or-null>}`,
and its stack field is null exactly when NODE_ENV is "production" (so the
trace is present in every non-production configuration, not only in
development); the auth middleware's directly-written 401 responses instead
have the shape `{error: <message>}` with no stack field. -/
theorem errorHandler_response_shape (env : String) (code : Nat)
    (msg trace : String) :
    ((errorHandler env code msg trace).body.objLookup "error" = some (.str msg))
  ∧ ((errorHandler env code msg trace).body.objLookup "stack"
       = some (if env = "production" then .null else .str trace))
  ∧ (((errorHandler env code msg trace).body.objLookup "stack" = some .null)
       ↔ env = "production")
  ∧ (∀ (secret : String) (now : Nat) (db : DB),
       protect secret now db ⟨none⟩
         = .error ⟨401, .obj [("error", .str "Not authorized, no token")]⟩
       ∧ (.obj [("error", .str "Not authorized, no token")] : JVal).objLookup "stack"
           = none) := by
  refine ⟨rfl, rfl, ?_, fun _ _ _ => ⟨rfl, rfl⟩⟩
  by_cases hp : env = "production"
  · simp [errorHandler, JVal.objLookup, hp, List.lookup]
  · simp only [errorHandler, JVal.objLookup, if_neg hp, List.lookup]
    constructor
    · intro h
      simp only [beq_iff_eq, reduceIte, beq_self_eq_true] at h
      exact absurd (Option.some.inj h) (fun hx => JVal.noConfusion hx)
    · intro h
      exact absurd h hp

/-- C8: the password verifier is a salted bcrypt hash with cost factor 10,
computed only when the password field is being set or changed: a save with
the password unmodified leaves the stored value untouched; a save with it
modified hashes it with the fresh salt drawn for that save; registration
stores such a hash and advances the salt source, so distinct salt draws
(hence distinct accounts) get distinct salts. -/
theorem password_hashed_only_when_modified (pw : PasswordValue) (s : String)
    (salt c1 c2 : Nat) (p1 p2 : String) :
    (preSaveHashPassword false pw salt = pw)
  ∧ (preSaveHashPassword true (.plain s) salt = .hashed (bcryptHashFn 10 salt s))
  ∧ ((bcryptHashFn 10 salt s).cost = 10 ∧ (bcryptHashFn 10 salt s).salt = salt)
  ∧ (c1 ≠ c2 → (bcryptHashFn 10 c1 p1).salt ≠ (bcryptHashFn 10 c2 p2).salt)
  ∧ (∀ (secret : String) (now : Nat) (db : DB)
       (username email password : String) (db' : DB) (r : AuthResponse),
       signupUser secret now db username email password = .ok (db', r) →
       ∃ u : UserDoc,
         db'.users = db.users ++ [u]
       ∧ u.password = .hashed (bcryptHashFn 10 db.nextSalt password)
       ∧ db'.nextSalt = db.nextSalt + 1) := by
  refine ⟨rfl, rfl, ⟨rfl, rfl⟩, fun h => h, ?_⟩
  intro secret now db username email password db' r hok
  unfold signupUser at hok
  split at hok
  · exact absurd hok (by simp)
  · split at hok
    · exact absurd hok (by simp)
    · split at hok
      · exact absurd hok (by simp)
      · rename_i dbu uu heq
        simp only [Except.ok.injEq, Prod.mk.injEq] at hok
        obtain ⟨hdb, -⟩ := hok
        obtain ⟨hu, hdb'⟩ := userCreate_ok heq
        refine ⟨uu, ?_, ?_, ?_⟩
        · rw [← hdb, hdb']
        · rw [hu]; rfl
        · rw [← hdb, hdb']

/-- Witness for C8: an unmodified save keeps the verifier; a modified save
hashes with the fresh salt; a concrete successful signup stores the hash of
the submitted password under the store's next salt. -/
theorem password_hashed_only_when_modified_witness :
    (preSaveHashPassword false (.hashed (bcryptHashFn 10 1 "pw123456")) 7
       = .hashed (bcryptHashFn 10 1 "pw123456"))
  ∧ (preSaveHashPassword true (.plain "pw123456") 7
       = .hashed (bcryptHashFn 10 7 "pw123456"))
  ∧ ((3 : Nat) ≠ 4 → (bcryptHashFn 10 3 "a").salt ≠ (bcryptHashFn 10 4 "b").salt) :=
  ⟨(password_hashed_only_when_modified (.hashed (bcryptHashFn 10 1 "pw123456"))
      "pw123456" 7 3 4 "a" "b").1,
   (password_hashed_only_when_modified (.plain "x") "pw123456" 7 3 4 "a" "b").2.1,
   (password_hashed_only_when_modified (.plain "x") "pw123456" 7 3 4 "a" "b").2.2.2.1⟩

/-- C10: when the email is fresh but the username duplicates an existing
account, `signupUser` passes its only conflict check (which queries by
email alone) and the duplicate username is rejected by the storage layer's
unique index, surfacing through the catch-all error path as a 500 — not as
the 400 "User already exists" response. -/
theorem signup_duplicate_username_unclassified (env stackTrace secret : String)
    (now : Nat) (db : DB) (username email password : String)
    (hu : username ≠ "") (he : email ≠ "") (hp : password ≠ "")
    (hdup : ∃ u ∈ db.users, u.username = strTrim username)
    (hemail : findUserByEmail db email = none) :
    signupUser secret now db username email password = .error (.dupKey "username")
  ∧ (ApiError.dupKey "username" ≠ ApiError.http 400 "User already exists")
  ∧ runSignup env stackTrace secret now db username email password
      = (db, errorHandler env 200 (errMessageOf (.dupKey "username")) stackTrace)
  ∧ (runSignup env stackTrace secret now db username email password).2.status = 500 := by
  have hany : db.users.any (fun u => decide (u.username = strTrim username)) = true := by
    rw [List.any_eq_true]
    obtain ⟨u, hu1, hu2⟩ := hdup
    exact ⟨u, hu1, by simp [hu2]⟩
  have hsign : signupUser secret now db username email password
      = .error (.dupKey "username") := by
    simp [signupUser, hu, he, hp, hemail, userCreate, hany]
  refine ⟨hsign, fun h => ApiError.noConfusion h, ?_, ?_⟩
  · simp [runSignup, hsign, errorResponse, presetStatus]
  · simp [runSignup, hsign, errorResponse, presetStatus, errorHandler]

/-- Witness for C10: registering "alice" again under a fresh email against
the one-account store fails with the storage duplicate-key error and a 500. -/
theorem signup_duplicate_username_unclassified_witness :
    signupUser "sec" 0 dbAlice "alice" "new@x.com" "pw9" = .error (.dupKey "username")
  ∧ (runSignup "development" "tr" "sec" 0 dbAlice "alice" "new@x.com" "pw9").2.status
      = 500 :=
  ⟨(signup_duplicate_username_unclassified "development" "tr" "sec" 0 dbAlice
      "alice" "new@x.com" "pw9" (by decide) (by decide) (by decide)
      ⟨⟨1, "alice", "a@x.com", .hashed (bcryptHashFn 10 1 "pw123456")⟩, by decide, by decide⟩
      rfl).1,
   (signup_duplicate_username_unclassified "development" "tr" "sec" 0 dbAlice
      "alice" "new@x.com" "pw9" (by decide) (by decide) (by decide)
      ⟨⟨1, "alice", "a@x.com", .hashed (bcryptHashFn 10 1 "pw123456")⟩, by decide, by decide⟩
      rfl).2.2.2⟩

/-- C2: for every account and every store population, `getTrips` succeeds
and returns exactly the trips whose owner is that account — every returned
trip is owned by the caller, every stored trip of the caller is returned,
nothing else is — each with the owner's display name resolved by populate,
and an ownerless population yields the empty (non-error) result. -/
theorem getTrips_ownership_scoped (db : DB) (u : UserView) :
    ∃ l, getTrips db (some u) = .ok l
  ∧ (∀ tv ∈ l, tv.createdBy = u.id)
  ∧ (∀ t ∈ db.trips, t.createdBy = u.id → mkTripView db t ∈ l)
  ∧ (∀ tv ∈ l, ∃ t ∈ db.trips, t.createdBy = u.id ∧ tv = mkTripView db t)
  ∧ (∀ tv ∈ l, tv.createdByUsername
       = (findUserById db tv.createdBy).map (fun w => w.username))
  ∧ ((∀ t ∈ db.trips, t.createdBy ≠ u.id) → l = []) := by
  refine ⟨(db.trips.filter (fun (t : TripDoc) => decide (t.createdBy = u.id))).map
            (mkTripView db),
          rfl, ?_, ?_, ?_, ?_, ?_⟩
  · intro tv htv
    obtain ⟨t, ht, rfl⟩ := List.mem_map.mp htv
    have h2 := (List.mem_filter.mp ht).2
    simpa [mkTripView] using h2
  · intro t ht howner
    exact List.mem_map.mpr ⟨t, List.mem_filter.mpr ⟨ht, by simp [howner]⟩, rfl⟩
  · intro tv htv
    obtain ⟨t, ht, rfl⟩ := List.mem_map.mp htv
    obtain ⟨ht1, ht2⟩ := List.mem_filter.mp ht
    exact ⟨t, ht1, by simpa using ht2, rfl⟩
  · intro tv htv
    obtain ⟨t, _, rfl⟩ := List.mem_map.mp htv
    rfl
  · intro hnone
    have hf : db.trips.filter (fun t => decide (t.createdBy = u.id)) = [] := by
      rw [List.filter_eq_nil_iff]
      intro t ht
      simpa using hnone t ht
    rw [hf]
    rfl

/-- Witness for C2: against the one-user, one-trip store, alice's listing is
her populated trip and bob's (id 2) listing is empty. -/
theorem getTrips_ownership_scoped_witness :
    (∃ l, getTrips dbAlice (some ⟨1, "alice", "a@x.com"⟩) = .ok l
        ∧ (∀ tv ∈ l, tv.createdBy = 1)
        ∧ (∀ t ∈ dbAlice.trips, t.createdBy = 1 → mkTripView dbAlice t ∈ l)
        ∧ (∀ tv ∈ l, ∃ t ∈ dbAlice.trips, t.createdBy = 1 ∧ tv = mkTripView dbAlice t)
        ∧ (∀ tv ∈ l, tv.createdByUsername
             = (findUserById dbAlice tv.createdBy).map (fun w => w.username))
        ∧ ((∀ t ∈ dbAlice.trips, t.createdBy ≠ 1) → l = []))
  ∧ getTrips dbAlice (some ⟨2, "bob", "b@x.com"⟩) = .ok [] :=
  ⟨getTrips_ownership_scoped dbAlice ⟨1, "alice", "a@x.com"⟩, rfl⟩

/-- C1: `deleteTrip` answers 404 "Trip not found" and leaves the store
untouched when no trip has the requested id; answers 403 "Not authorized to
delete this trip" and leaves the store untouched — the trip still present —
when the trip exists but the requester is not its creator; and removes
exactly the requested trip and returns the confirmation message when the
requester is the creator.  The two failure conditions carry distinct status
codes. -/
theorem deleteTrip_contract (env stackTrace : String) (db : DB) (uid tid : Nat) :
    (findTripById db tid = none →
       runDeleteTrip env stackTrace db uid tid
         = (db, errorHandler env 404 "Trip not found" stackTrace)
     ∧ (runDeleteTrip env stackTrace db uid tid).2.status = 404)
  ∧ (∀ t, findTripById db tid = some t → t.createdBy ≠ uid →
       runDeleteTrip env stackTrace db uid tid
         = (db, errorHandler env 403 "Not authorized to delete this trip" stackTrace)
     ∧ (runDeleteTrip env stackTrace db uid tid).1 = db
     ∧ t ∈ (runDeleteTrip env stackTrace db uid tid).1.trips
     ∧ (runDeleteTrip env stackTrace db uid tid).2.status = 403)
  ∧ (∀ t, findTripById db tid = some t → t.createdBy = uid →
       runDeleteTrip env stackTrace db uid tid
         = ({ db with trips := db.trips.filter (fun t' => !(decide (t'.id = tid))) },
            ⟨200, .obj [("message", .str "Trip removed successfully")]⟩)
     ∧ (∀ t' ∈ (runDeleteTrip env stackTrace db uid tid).1.trips, t'.id ≠ tid)
     ∧ (∀ t' ∈ db.trips, t'.id ≠ tid →
          t' ∈ (runDeleteTrip env stackTrace db uid tid).1.trips))
  ∧ (404 : Nat) ≠ 403 := by
  refine ⟨?_, ?_, ?_, by decide⟩
  · intro hnone
    constructor
    · simp [runDeleteTrip, deleteTrip, hnone, errorResponse, presetStatus, errMessageOf]
    · simp [runDeleteTrip, deleteTrip, hnone, errorResponse, presetStatus, errMessageOf,
            errorHandler]
  · intro t hsome hne
    have hmem : t ∈ db.trips := List.mem_of_find?_eq_some hsome
    refine ⟨?_, ?_, ?_, ?_⟩
    · simp [runDeleteTrip, deleteTrip, hsome, hne, errorResponse, presetStatus, errMessageOf]
    · simp [runDeleteTrip, deleteTrip, hsome, hne]
    · simp only [runDeleteTrip, deleteTrip, hsome, if_pos hne]
      exact hmem
    · simp [runDeleteTrip, deleteTrip, hsome, hne, errorResponse, presetStatus, errMessageOf,
            errorHandler]
  · intro t hsome heq
    have hrun : runDeleteTrip env stackTrace db uid tid
        = ({ db with trips := db.trips.filter (fun t' => !(decide (t'.id = tid))) },
           ⟨200, .obj [("message", .str "Trip removed successfully")]⟩) := by
      simp [runDeleteTrip, deleteTrip, hsome, heq]
    refine ⟨hrun, ?_, ?_⟩
    · intro t' ht'
      rw [hrun] at ht'
      have h2 := (List.mem_filter.mp ht').2
      simpa using h2
    · intro t' ht' hne
      rw [hrun]
      exact List.mem_filter.mpr ⟨ht', by simpa using hne⟩

/-- Witness for C1: against the one-trip store, deleting a nonexistent id
is a 404, bob deleting alice's trip is a 403 leaving it in place, and alice
deleting her own trip removes it. -/
theorem deleteTrip_contract_witness :
    runDeleteTrip "development" "tr" dbAlice 1 99
      = (dbAlice, errorHandler "development" 404 "Trip not found" "tr")
  ∧ runDeleteTrip "development" "tr" dbAlice 2 5
      = (dbAlice, errorHandler "development" 403 "Not authorized to delete this trip" "tr")
  ∧ runDeleteTrip "development" "tr" dbAlice 1 5
      = ({ dbAlice with trips := [] },
         ⟨200, .obj [("message", .str "Trip removed successfully")]⟩) :=
  ⟨((deleteTrip_contract "development" "tr" dbAlice 1 99).1 rfl).1,
   ((deleteTrip_contract "development" "tr" dbAlice 2 5).2.1
      ⟨5, "Coastal Run", none, [⟨"Pier", 34, -118⟩], 1, 0⟩ rfl (by decide)).1,
   ((deleteTrip_contract "development" "tr" dbAlice 1 5).2.2.1
      ⟨5, "Coastal Run", none, [⟨"Pier", 34, -118⟩], 1, 0⟩ rfl rfl).1⟩

/-- C6 counterexample: a request whose title is the blank string " " — not
empty, so outside the claim's ValidationError/400 condition — with one
well-formed stop is neither answered 400 nor persisted: the schema's trim
setter empties the title, `trip.save()` fails validation, and the request
surfaces as a 500 with the store unchanged, contradicting "otherwise it
persists a new Trip ... and returns it in full". -/
theorem createTrip_blank_title_counterexample :
    (" " ≠ "") ∧ ([(⟨"Pier", 34, -118⟩ : Location)] ≠ [])
  ∧ createTrip 3 dbEmpty (some ⟨1, "alice", "a@x.com"⟩) " " none
      [⟨"Pier", 34, -118⟩] = .error (.validation "Trip validation failed")
  ∧ (runCreateTrip "development" "tr" 3 dbEmpty (some ⟨1, "alice", "a@x.com"⟩)
       " " none [⟨"Pier", 34, -118⟩]).2.status = 500
  ∧ (runCreateTrip "development" "tr" 3 dbEmpty (some ⟨1, "alice", "a@x.com"⟩)
       " " none [⟨"Pier", 34, -118⟩]).1 = dbEmpty :=
  ⟨by decide, by decide, rfl, rfl, rfl⟩

/-- C6 amended: a CreateTrip request with an empty title or zero stops
always fails with 400 and leaves the store unchanged; when the title is
non-blank (nonempty after trimming) and every stop name is non-blank, a new
Trip owned by the authenticated account is persisted and returned in full
with the server-assigned identifier and creation timestamp; a request that
passes the controller check but whose title or some stop name is blank
after trimming fails schema validation at save as an unclassified 500, also
creating no record. -/
theorem createTrip_contract (env stackTrace : String) (now : Nat) (db : DB)
    (u : UserView) (title : String) (description : Option String)
    (locations : List Location) :
    ((title = "" ∨ locations = []) →
       createTrip now db (some u) title description locations
         = .error (.http 400 "Please include a title and at least one location")
     ∧ runCreateTrip env stackTrace now db (some u) title description locations
         = (db, errorHandler env 400
             "Please include a title and at least one location" stackTrace)
     ∧ (runCreateTrip env stackTrace now db (some u) title description
          locations).2.status = 400)
  ∧ (strTrim title ≠ "" → (∀ l ∈ locations, strTrim l.name ≠ "") →
       locations ≠ [] →
       ∃ t : TripDoc,
         createTrip now db (some u) title description locations
           = .ok ({ db with trips := db.trips ++ [t],
                            nextTripId := db.nextTripId + 1 }, t)
       ∧ t.id = db.nextTripId ∧ t.createdBy = u.id ∧ t.createdAt = now
       ∧ t.title = strTrim title ∧ t.description = description
       ∧ t.locations = locations.map (fun l => { l with name := strTrim l.name })
       ∧ runCreateTrip env stackTrace now db (some u) title description locations
           = ({ db with trips := db.trips ++ [t],
                        nextTripId := db.nextTripId + 1 },
              ⟨201, tripDocJson t⟩))
  ∧ (title ≠ "" → locations ≠ [] →
       (strTrim title = "" ∨ ∃ l ∈ locations, strTrim l.name = "") →
       runCreateTrip env stackTrace now db (some u) title description locations
         = (db, errorHandler env 200 "Trip validation failed" stackTrace)
     ∧ (runCreateTrip env stackTrace now db (some u) title description
          locations).2.status = 500) := by
  refine ⟨?_, ?_, ?_⟩
  · intro hbad
    have hcond : title = "" ∨ locations.isEmpty = true := by
      rcases hbad with h | h
      · exact Or.inl h
      · exact Or.inr (by simp [h])
    have hc : createTrip now db (some u) title description locations
        = .error (.http 400 "Please include a title and at least one location") := by
      unfold createTrip
      rw [if_pos hcond]
    refine ⟨hc, ?_, ?_⟩ <;>
      simp [runCreateTrip, hc, errorResponse, presetStatus, errMessageOf,
            errorHandler]
  · intro htrim hnames hne
    have htitle : title ≠ "" := fun h => htrim (by rw [h]; rfl)
    have hcond : ¬ (title = "" ∨ locations.isEmpty = true) := by
      simp [htitle, hne]
    have hvalid : tripValidate
        { id := db.nextTripId, title := strTrim title,
          description := description,
          locations := locations.map (fun l => { l with name := strTrim l.name }),
          createdBy := u.id, createdAt := now } = true := by
      unfold tripValidate
      rw [Bool.and_eq_true]
      refine ⟨by simpa using htrim, ?_⟩
      rw [List.all_eq_true]
      intro l hl
      obtain ⟨l0, hl0, rfl⟩ := List.mem_map.mp hl
      simpa using hnames l0 hl0
    have hc : createTrip now db (some u) title description locations
        = .ok ({ db with
                   trips := db.trips ++
                     [{ id := db.nextTripId, title := strTrim title,
                        description := description,
                        locations := locations.map
                          (fun l => { l with name := strTrim l.name }),
                        createdBy := u.id, createdAt := now }],
                   nextTripId := db.nextTripId + 1 },
                { id := db.nextTripId, title := strTrim title,
                  description := description,
                  locations := locations.map
                    (fun l => { l with name := strTrim l.name }),
                  createdBy := u.id, createdAt := now }) := by
      unfold createTrip
      rw [if_neg hcond]
      exact if_pos hvalid
    refine ⟨_, hc, rfl, rfl, rfl, rfl, rfl, rfl, ?_⟩
    simp [runCreateTrip, hc]
  · intro htitle hne hbadv
    have hcond : ¬ (title = "" ∨ locations.isEmpty = true) := by
      simp [htitle, hne]
    have hinvalid : tripValidate
        { id := db.nextTripId, title := strTrim title,
          description := description,
          locations := locations.map (fun l => { l with name := strTrim l.name }),
          createdBy := u.id, createdAt := now } = false := by
      unfold tripValidate
      rcases hbadv with h | ⟨l, hl, hname⟩
      · simp [h]
      · rw [Bool.and_eq_false_iff]
        right
        rw [List.all_eq_false]
        exact ⟨{ l with name := strTrim l.name },
               List.mem_map.mpr ⟨l, hl, rfl⟩, by simp [hname]⟩
    have hc : createTrip now db (some u) title description locations
        = .error (.validation "Trip validation failed") := by
      unfold createTrip
      rw [if_neg hcond]
      exact if_neg (by simp [hinvalid])
    constructor
    · simp [runCreateTrip, hc, errorResponse, presetStatus, errMessageOf]
    · simp [runCreateTrip, hc, errorResponse, presetStatus, errMessageOf,
            errorHandler]

/-- Witness for C6 (amended): an empty title is a 400 leaving the store
unchanged; a well-formed request persists the trip with id and timestamp. -/
theorem createTrip_contract_witness :
    (runCreateTrip "development" "tr" 3 dbEmpty (some ⟨1, "alice", "a@x.com"⟩)
       "" none [⟨"Pier", 34, -118⟩]).2.status = 400
  ∧ ∃ t : TripDoc,
      createTrip 3 dbEmpty (some ⟨1, "alice", "a@x.com"⟩) "Coastal Run" none
        [⟨"Pier", 34, -118⟩]
        = .ok ({ dbEmpty with trips := dbEmpty.trips ++ [t],
                              nextTripId := dbEmpty.nextTripId + 1 }, t)
    ∧ t.id = dbEmpty.nextTripId ∧ t.createdBy = 1 ∧ t.createdAt = 3
    ∧ t.title = strTrim "Coastal Run" ∧ t.description = none
    ∧ t.locations = ([(⟨"Pier", 34, -118⟩ : Location)]).map
        (fun l => { l with name := strTrim l.name })
    ∧ runCreateTrip "development" "tr" 3 dbEmpty (some ⟨1, "alice", "a@x.com"⟩)
        "Coastal Run" none [⟨"Pier", 34, -118⟩]
        = ({ dbEmpty with trips := dbEmpty.trips ++ [t],
                          nextTripId := dbEmpty.nextTripId + 1 },
           ⟨201, tripDocJson t⟩) :=
  ⟨((createTrip_contract "development" "tr" 3 dbEmpty ⟨1, "alice", "a@x.com"⟩
       "" none [⟨"Pier", 34, -118⟩]).1 (Or.inl rfl)).2.2,
   (createTrip_contract "development" "tr" 3 dbEmpty ⟨1, "alice", "a@x.com"⟩
      "Coastal Run" none [⟨"Pier", 34, -118⟩]).2.1 (by decide)
      (by decide) (by decide)⟩

/-- C3 counterexample: against a store already holding account "alice", the
registration ("alice", "new@x.com", "pw9") satisfies all of the claim's
validity conditions — all three fields present and the email not already
registered — yet Register itself fails (the schema's unique index on the
username rejects the create), so Register followed by Login cannot succeed. -/
theorem register_then_login_counterexample :
    ("alice" ≠ "") ∧ ("new@x.com" ≠ "") ∧ ("pw9" ≠ "")
  ∧ findUserByEmail dbAlice "new@x.com" = none
  ∧ signupUser "sec" 0 dbAlice "alice" "new@x.com" "pw9"
      = .error (.dupKey "username") :=
  ⟨by decide, by decide, by decide, rfl, rfl⟩

/-- C3 amended: for all registration inputs with username, email and
password present, the email not already registered and the username not
already taken (both as the schema normalizes them), Register succeeds, an
immediate Login with the same email and plaintext password succeeds, both
return the same account identifier, and both returned tokens embed that
identifier. -/
theorem register_then_login (secret : String) (now now' : Nat) (db : DB)
    (username email password : String)
    (hu : username ≠ "") (he : email ≠ "") (hp : password ≠ "")
    (hemail : findUserByEmail db email = none)
    (hname : ∀ w ∈ db.users, w.username ≠ strTrim username) :
    ∃ (db' : DB) (r r' : AuthResponse),
      signupUser secret now db username email password = .ok (db', r)
    ∧ loginUser secret now' db' email password = .ok r'
    ∧ r.userId = r'.userId ∧ r.userId = db.nextUserId
    ∧ r.token.id = r.userId ∧ r'.token.id = r'.userId := by
  have hanyname : (db.users.any (fun w => decide (w.username = strTrim username)))
      = false := by
    rw [List.any_eq_false]
    intro w hw
    simpa using hname w hw
  have hanyemail : (db.users.any
      (fun w => decide (w.email = strToLower (strTrim email)))) = false := by
    rw [List.any_eq_false]
    intro w hw
    have := List.find?_eq_none.mp hemail w hw
    simpa using this
  have hnotbad : ¬ (username = "" ∨ email = "" ∨ password = "") := by
    simp [hu, he, hp]
  have hcreate : userCreate db username email password
      = .ok ({ db with
                 users := db.users ++
                   [⟨db.nextUserId, strTrim username, strToLower (strTrim email),
                     .hashed (bcryptHashFn 10 db.nextSalt password)⟩],
                 nextUserId := db.nextUserId + 1,
                 nextSalt := db.nextSalt + 1 },
             ⟨db.nextUserId, strTrim username, strToLower (strTrim email),
              .hashed (bcryptHashFn 10 db.nextSalt password)⟩) := by
    unfold userCreate
    rw [if_neg (by simp [hanyname]), if_neg (by simp [hanyemail])]
    rfl
  have hsign : signupUser secret now db username email password
      = .ok ({ db with
                 users := db.users ++
                   [⟨db.nextUserId, strTrim username, strToLower (strTrim email),
                     .hashed (bcryptHashFn 10 db.nextSalt password)⟩],
                 nextUserId := db.nextUserId + 1,
                 nextSalt := db.nextSalt + 1 },
             ⟨db.nextUserId, strTrim username, strToLower (strTrim email),
              generateToken secret now db.nextUserId⟩) := by
    unfold signupUser
    rw [if_neg hnotbad, hemail, hcreate]
  have hfind : findUserByEmail
      { db with
          users := db.users ++
            [⟨db.nextUserId, strTrim username, strToLower (strTrim email),
              .hashed (bcryptHashFn 10 db.nextSalt password)⟩],
          nextUserId := db.nextUserId + 1,
          nextSalt := db.nextSalt + 1 } email
      = some ⟨db.nextUserId, strTrim username, strToLower (strTrim email),
              .hashed (bcryptHashFn 10 db.nextSalt password)⟩ := by
    have hemail' : (db.users.find?
        fun u => decide (u.email = strToLower (strTrim email))) = none := hemail
    unfold findUserByEmail
    show (db.users ++ [_]).find? _ = _
    rw [List.find?_append, hemail', Option.none_or]
    exact List.find?_cons_of_pos _ (by simp)
  have hlogin : loginUser secret now'
      { db with
          users := db.users ++
            [⟨db.nextUserId, strTrim username, strToLower (strTrim email),
              .hashed (bcryptHashFn 10 db.nextSalt password)⟩],
          nextUserId := db.nextUserId + 1,
          nextSalt := db.nextSalt + 1 } email password
      = .ok ⟨db.nextUserId, strTrim username, strToLower (strTrim email),
             generateToken secret now' db.nextUserId⟩ := by
    unfold loginUser
    rw [hfind]
    simp [UserDoc.matchPassword, bcryptCompare, bcryptHashFn]
  exact ⟨_, _, _, hsign, hlogin, rfl, rfl, rfl, rfl⟩

/-- Witness for C3 (amended): registering alice on the empty store and
logging in immediately with the same credentials both return account id 1. -/
theorem register_then_login_witness :
    ∃ (db' : DB) (r r' : AuthResponse),
      signupUser "sec" 0 dbEmpty "alice" "A@x.com" "pw123456" = .ok (db', r)
    ∧ loginUser "sec" 7 db' "A@x.com" "pw123456" = .ok r'
    ∧ r.userId = r'.userId ∧ r.userId = dbEmpty.nextUserId
    ∧ r.token.id = r.userId ∧ r'.token.id = r'.userId :=
  register_then_login "sec" 0 7 dbEmpty "alice" "A@x.com" "pw123456"
    (by decide) (by decide) (by decide) rfl (by decide)

end RoadTrip
